import Mathlib

/-!
Shallow embedding of the two sample applications of this repository:

* `src/examples/01_random_number/src/send_random_numbers_to_aiotp.c` (the publisher)
* `src/examples/01_random_number/src/receive_random_numbers_from_aiotp.c` (the subscriber)

Pure data and control flow of the samples is translated into executable Lean
definitions; calls into the AWS IoT SDK (connect, publish, subscribe, yield,
attempt_reconnect) are represented by events in traces, with their return codes
supplied by oracle functions, since the SDK itself is not part of this
repository.
-/

set_option maxHeartbeats 1000000

/-- Return codes of the SDK enum IoT_Error_t that the two samples inspect,
plus the InvalidParams code used by the spec's model of connect validation. -/
inductive IoTError where
  | NONE_ERROR
  | GENERIC_ERROR
  | CONNECTION_ERROR
  | RECONNECT_SUCCESSFUL
  | NETWORK_ATTEMPTING_RECONNECT
  | NETWORK_DISCONNECTED
  | InvalidParams
deriving DecidableEq, BEq, Repr

/-- The loop-continuation test on the last return code, shared by the
publisher loop (line 183) and the subscriber loop (line 194):
`NETWORK_ATTEMPTING_RECONNECT == rc || RECONNECT_SUCCESSFUL == rc || NONE_ERROR == rc`. -/
def loopContinueRc (rc : IoTError) : Bool :=
  rc == IoTError.NETWORK_ATTEMPTING_RECONNECT
    || rc == IoTError.RECONNECT_SUCCESSFUL
    || rc == IoTError.NONE_ERROR

/-- The ASCII byte values that C sprintf with format "%d" writes for a
nonnegative integer value: the decimal digits, most significant first
(digit d is written as byte 48 + d). -/
def decimalDigitBytes (n : Nat) : List Nat :=
  if n < 10 then [48 + n] else decimalDigitBytes (n / 10) ++ [48 + n % 10]
termination_by n
decreasing_by omega

/-- C strlen on a byte buffer: the number of bytes before the first NUL. -/
def strlen (bytes : List Nat) : Nat :=
  (bytes.takeWhile (fun b => b != 0)).length

/-- The contents that `sprintf(cPayload, "%d", randNumber)` (publisher line 188)
leaves in the buffer for a nonnegative value: the decimal digit bytes followed
by the NUL terminator. -/
def sprintfDecimal (n : Nat) : List Nat :=
  decimalDigitBytes n ++ [0]

/-- The payload bytes the publisher hands to aws_iot_mqtt_publish: the buffer
written by sprintf, truncated to `Msg.PayloadLen = strlen(cPayload) + 1`
(publisher line 189). -/
def publishedPayload (n : Nat) : List Nat :=
  (sprintfDecimal n).take (strlen (sprintfDecimal n) + 1)

/-- Size of the publisher's payload buffer `char cPayload[15]` (line 176). -/
def cPayloadSize : Nat := 15

/-- C INT_MAX, an upper bound on the value returned by rand(). -/
def intMax : Nat := 2147483647

/-- Keep-alive interval in seconds: connectParams.KeepAliveInterval_sec is
set to 10 identically in both applications. -/
def keepAliveIntervalSec : Nat := 10

/-- Basic digit-length bound: a value below 10 ^ k (k positive) has at most
k decimal digits. -/
theorem decimalDigitBytes_length_le (k : Nat) :
    ∀ n : Nat, n < 10 ^ k → 1 ≤ k → (decimalDigitBytes n).length ≤ k := by
  induction k with
  | zero => intro n _ hk; omega
  | succ k ih =>
    intro n hn _
    rw [decimalDigitBytes]
    by_cases h : n < 10
    · simp [h]
    · simp only [h, if_false, List.length_append, List.length_cons, List.length_nil]
      have hk1 : 1 ≤ k := by
        by_contra hk0
        have : k = 0 := by omega
        subst this
        simp [pow_succ] at hn
        omega
      have hdiv : n / 10 < 10 ^ k := by
        have : n < 10 ^ k * 10 := by
          calc n < 10 ^ (k + 1) := hn
          _ = 10 ^ k * 10 := by ring
        omega
      have := ih (n / 10) hdiv hk1
      omega

/-- Every byte produced by decimalDigitBytes is an ASCII digit, hence nonzero. -/
theorem decimalDigitBytes_mem_range :
    ∀ n : Nat, ∀ b ∈ decimalDigitBytes n, 48 ≤ b ∧ b ≤ 57 := by
  intro n
  induction n using Nat.strong_induction_on with
  | _ n ih =>
    intro b hb
    rw [decimalDigitBytes] at hb
    by_cases h : n < 10
    · simp [h] at hb
      omega
    · simp only [h, if_false, List.mem_append, List.mem_cons, List.not_mem_nil, or_false] at hb
      rcases hb with hb | hb
      · exact ih (n / 10) (by omega) b hb
      · have : n % 10 < 10 := Nat.mod_lt _ (by omega)
        omega

/-- takeWhile of a nonzero-byte list followed by a NUL recovers the list. -/
theorem takeWhile_append_nul (l : List Nat) (hl : ∀ b ∈ l, b ≠ 0) :
    (l ++ [0]).takeWhile (fun b => b != 0) = l := by
  induction l with
  | nil => simp [List.takeWhile]
  | cons a l ih =>
    have ha : a ≠ 0 := hl a (by simp)
    simp only [List.cons_append, List.takeWhile_cons]
    have : (a != 0) = true := by simpa using ha
    rw [this]
    simp only [if_true]
    rw [ih (fun b hb => hl b (by simp [hb]))]

/-- strlen of the sprintf buffer is the number of digits. -/
theorem strlen_sprintfDecimal (n : Nat) :
    strlen (sprintfDecimal n) = (decimalDigitBytes n).length := by
  unfold strlen sprintfDecimal
  rw [takeWhile_append_nul]
  intro b hb
  have := decimalDigitBytes_mem_range n b hb
  omega

/-- Observable actions of mqttDisconnectCallbackHandler. -/
inductive HandlerEvent where
  | logMsg (s : String)
  | attemptReconnectCall
deriving DecidableEq, BEq, Repr

/-- mqttDisconnectCallbackHandler, identical in the publisher (lines 47-65)
and the subscriber (lines 54-72): given whether auto reconnect is enabled at
the moment of the call and the outcome of aws_iot_mqtt_attempt_reconnect,
the sequence of log statements and SDK calls the handler performs. -/
def mqttDisconnectCallbackHandler (autoReconnectEnabled : Bool)
    (attemptOutcome : IoTError) : List HandlerEvent :=
  HandlerEvent.logMsg "MQTT Disconnect" ::
  (if autoReconnectEnabled then
    [HandlerEvent.logMsg "Auto Reconnect is enabled, Reconnecting attempt will start now"]
  else
    HandlerEvent.logMsg "Auto Reconnect not enabled. Starting manual reconnect..." ::
    HandlerEvent.attemptReconnectCall ::
    (if attemptOutcome == IoTError.RECONNECT_SUCCESSFUL then
      [HandlerEvent.logMsg "Manual Reconnect Successful"]
    else
      [HandlerEvent.logMsg "Manual Reconnect Failed"]))

/-- Interpreter for the %s-only fragment of C sprintf format strings, as used
by the path construction in both main functions. -/
def sprintfS : List Char → List String → List Char
  | [], _ => []
  | '%' :: 's' :: rest, a :: args => a.data ++ sprintfS rest args
  | c :: rest, args => c :: sprintfS rest args

/-- One path construction `sprintf(buf, "%s/%s/%s", CurrentWD, certDirectory,
fileName)` (publisher lines 128-130, subscriber lines 132-134). -/
def tlsMaterialPath (cwd certDir fname : String) : String :=
  String.mk (sprintfS "%s/%s/%s".data [cwd, certDir, fname])

/-- The three TLS material paths handed to connect. -/
structure TlsPaths where
  rootCA : String
  clientCRT : String
  clientKey : String
deriving DecidableEq, Repr

/-- The TLS path setup performed by main() in both applications: all three
paths are built by the same format string from the current working directory,
the single certDirectory variable and the per-material file name from
aws_iot_config.h. -/
def mainTlsPaths (cwd certDir caName crtName keyName : String) : TlsPaths :=
  { rootCA := tlsMaterialPath cwd certDir caName,
    clientCRT := tlsMaterialPath cwd certDir crtName,
    clientKey := tlsMaterialPath cwd certDir keyName }

/-- Milliseconds elapsing between the start of one aws_iot_mqtt_yield call and
the start of the next in the subscriber receive loop (lines 194-207): the
yield call itself (bounded by its 100 ms timeout), then getchar blocking for
stdinWaitMs until the user types a character, then the next iteration's
sleep(1), after which yield is called again. -/
def subscriberInterYieldMs (yieldMs stdinWaitMs : Nat) : Nat :=
  yieldMs + stdinWaitMs + 1000

/-- Value of the leading decimal digit run of a character list, as read by
C atoi after sign handling. -/
def leadingDigitsVal (cs : List Char) : Nat :=
  (cs.takeWhile (fun c => decide ('0' ≤ c) && decide (c ≤ '9'))).foldl
    (fun n c => 10 * n + (c.toNat - 48)) 0

/-- C isspace for the characters atoi skips. -/
def isSpaceChar (c : Char) : Bool :=
  c == ' ' || c == '\t' || c == '\n' || c == '\r' || c.toNat == 11 || c.toNat == 12

/-- C atoi: skip leading whitespace, read an optional sign, then the longest
leading run of decimal digits (0 when there is none). -/
def atoi (s : String) : Int :=
  match s.data.dropWhile isSpaceChar with
  | '-' :: rest => - (Int.ofNat (leadingDigitsVal rest))
  | '+' :: rest => Int.ofNat (leadingDigitsVal rest)
  | cs => Int.ofNat (leadingDigitsVal cs)

/-- Conversion of a C int value to uint32_t, as in the assignment
`port = atoi(optarg)` where port has type uint32_t. -/
def uint32OfInt (i : Int) : Nat :=
  (i % 4294967296).toNat

/-- One getopt option token: process the option characters of a single
argv element that starts with a dash. `nextArg` is the following argv
element, available as a separated option argument. Returns the events
getopt yields for this token, each an option character paired with its
argument (none for an unknown option or a missing argument), together
with whether `nextArg` was consumed as an option argument. Option
characters listed in `optChars` require an argument, matching the
optstrings "h:p:c:x:" and "h:p:c:" of the two samples. -/
def getoptToken (optChars : List Char) : List Char → Option String →
    List (Char × Option String) × Bool
  | [], _ => ([], false)
  | c :: tail, nextArg =>
    if c ∈ optChars then
      match tail with
      | [] =>
        match nextArg with
        | some a => ([(c, some a)], true)
        | none => ([(c, none)], false)
      | _ :: _ => ([(c, some (String.mk tail))], false)
    else
      let rest := getoptToken optChars tail nextArg
      ((c, none) :: rest.1, rest.2)

/-- The sequence of option events getopt yields over an argv tail (the
elements after the program name): a bare "--" stops option scanning,
elements not starting with a dash (or a lone "-") are non-option arguments
that GNU getopt permutes past, and every other element is an option token. -/
def getoptArgs (optChars : List Char) : List String → List (Char × Option String)
  | [] => []
  | arg :: rest =>
    match arg.data with
    | '-' :: '-' :: [] => []
    | '-' :: c :: tail =>
      match rest with
      | [] => (getoptToken optChars (c :: tail) none).1
      | b :: rest2 =>
        let r := getoptToken optChars (c :: tail) (some b)
        if r.2 then r.1 ++ getoptArgs optChars rest2
        else r.1 ++ getoptArgs optChars (b :: rest2)
    | _ => getoptArgs optChars rest

/-- The option characters of the publisher's optstring "h:p:c:x:". -/
def pubOptChars : List Char := ['h', 'p', 'c', 'x']

/-- The option characters of the subscriber's optstring "h:p:c:". -/
def subOptChars : List Char := ['h', 'p', 'c']

/-- The global configuration variables of the publisher. -/
structure PubConfig where
  hostAddress : String
  port : Nat
  certDirectory : String
  publishCount : Int
deriving DecidableEq, Repr

/-- The global configuration variables of the subscriber. -/
structure SubConfig where
  hostAddress : String
  port : Nat
  certDirectory : String
deriving DecidableEq, Repr

/-- Effect of one getopt event on the publisher's globals, from the switch
in parseInputArgsForConnectParams (publisher lines 72-101): 'h' copies the
argument into HostAddress, 'p' stores atoi of the argument into the uint32_t
port, 'c' copies into certDirectory, 'x' stores atoi into publishCount, and
every other case (including '?') only logs. An event without an argument is
a missing-argument or unknown-option event and assigns nothing. -/
def applyPubOpt (cfg : PubConfig) (e : Char × Option String) : PubConfig :=
  match e.2 with
  | none => cfg
  | some a =>
    if e.1 = 'h' then { cfg with hostAddress := a }
    else if e.1 = 'p' then { cfg with port := uint32OfInt (atoi a) }
    else if e.1 = 'c' then { cfg with certDirectory := a }
    else if e.1 = 'x' then { cfg with publishCount := atoi a }
    else cfg

/-- Effect of one getopt event on the subscriber's globals, from the switch
in its parseInputArgsForConnectParams (subscriber lines 79-104), which has
no 'x' case. -/
def applySubOpt (cfg : SubConfig) (e : Char × Option String) : SubConfig :=
  match e.2 with
  | none => cfg
  | some a =>
    if e.1 = 'h' then { cfg with hostAddress := a }
    else if e.1 = 'p' then { cfg with port := uint32OfInt (atoi a) }
    else if e.1 = 'c' then { cfg with certDirectory := a }
    else cfg

/-- parseInputArgsForConnectParams of the publisher: fold the getopt events
over the globals, whose prior values are the defaults. `args` is the argv
tail after the program name. -/
def parseInputArgsForConnectParamsPub (defaults : PubConfig) (args : List String) : PubConfig :=
  (getoptArgs pubOptChars args).foldl applyPubOpt defaults

/-- parseInputArgsForConnectParams of the subscriber. -/
def parseInputArgsForConnectParamsSub (defaults : SubConfig) (args : List String) : SubConfig :=
  (getoptArgs subOptChars args).foldl applySubOpt defaults

/-- The argument of the last option event for character c that carried an
argument, scanning the event list with later events taking precedence. -/
def lastOptArg (c : Char) : List (Char × Option String) → Option String
  | [] => none
  | e :: evs =>
    match lastOptArg c evs with
    | some a => some a
    | none => if e.1 = c ∧ e.2.isSome then e.2 else none

/-- One observable iteration of the publisher's send loop: the publish call
with its topic, QoS and payload bytes, followed by the sleep. -/
structure PubEvent where
  topic : String
  qos : Nat
  payload : List Nat
  sleepSec : Nat
deriving DecidableEq, Repr

/-- The publisher's send loop (lines 183-203). `rands` gives the successive
values returned by rand(), `pubOutcome` the return codes of the successive
aws_iot_mqtt_publish calls; `i` counts iterations already performed, `rc` is
the current last return code and `count` the current value of publishCount.
Each iteration draws one fresh random value, publishes its decimal string on
topic "sample-application/random-number" with QOS_0 and payload length
strlen + 1, decrements publishCount, and sleeps 1 second. Returns the list of
iterations performed and the final value of rc. -/
def publishLoop (rands : Nat → Nat) (pubOutcome : Nat → IoTError)
    (i : Nat) (rc : IoTError) (count : Int) : List PubEvent × IoTError :=
  if loopContinueRc rc ∧ 0 < count then
    let ev : PubEvent :=
      { topic := "sample-application/random-number", qos := 0,
        payload := publishedPayload (rands i), sleepSec := 1 }
    let rest := publishLoop rands pubOutcome (i + 1) (pubOutcome i) (count - 1)
    (ev :: rest.1, rest.2)
  else ([], rc)
termination_by count.toNat
decreasing_by omega

/-- Observable SDK interactions of the two main functions. -/
inductive MainEvent where
  | connectCall
  | logConnectError (rc : IoTError)
  | setAutoReconnectCall (enabled : Bool)
  | publishCall (topic : String) (qos : Nat) (payload : List Nat)
  | subscribeCall (topic : String) (qos : Nat)
  | yieldCall (timeoutMs : Nat)
  | sleepCall (sec : Nat)
  | readStdinChar
  | retMain (rc : IoTError)
deriving DecidableEq, Repr

/-- main() of the publisher after argument parsing and path setup
(lines 155-212): call aws_iot_mqtt_connect once, log on failure but continue,
overwrite rc with the result of aws_iot_mqtt_autoreconnect_set_status(true)
and return early if that failed, then run the send loop starting from that rc
and return the loop's final rc. `connectRc` and `setRc` are the outcomes of
the two SDK calls. -/
def publisherMain (connectRc setRc : IoTError) (rands : Nat → Nat)
    (pubOutcome : Nat → IoTError) (count : Int) : List MainEvent :=
  [MainEvent.connectCall]
    ++ (if connectRc ≠ IoTError.NONE_ERROR then [MainEvent.logConnectError connectRc] else [])
    ++ [MainEvent.setAutoReconnectCall true]
    ++ (if setRc ≠ IoTError.NONE_ERROR then [MainEvent.retMain setRc]
        else
          let loop := publishLoop rands pubOutcome 0 setRc count
          loop.1.map (fun ev => MainEvent.publishCall ev.topic ev.qos ev.payload)
            ++ [MainEvent.retMain loop.2])

/-- The subscriber's receive loop (lines 194-207), truncated to its first
`fuel` iterations (the loop itself has no iteration bound: it runs until the
user enters 'q' or a return code leaves the continuation set). Each
iteration sleeps 1 second, calls aws_iot_mqtt_yield(100), and reads one
character from stdin. `yieldOutcome` gives the successive yield return codes
and `stdinChars` the successive characters getchar returns. Returns the
events of the iterations performed and the final rc. -/
def subscriberLoop (yieldOutcome : Nat → IoTError) (stdinChars : Nat → Char) :
    Nat → IoTError → Char → Nat → List MainEvent × IoTError
  | _, rc, _, 0 => ([], rc)
  | i, rc, ch, fuel + 1 =>
    if loopContinueRc rc ∧ ch ≠ 'q' then
      let rc2 := yieldOutcome i
      let rest := subscriberLoop yieldOutcome stdinChars (i + 1) rc2 (stdinChars i) fuel
      (MainEvent.sleepCall 1 :: MainEvent.yieldCall 100 :: MainEvent.readStdinChar :: rest.1,
        rest.2)
    else ([], rc)

/-- main() of the subscriber after argument parsing and path setup
(lines 159-216): call aws_iot_mqtt_connect once, log on failure but continue,
overwrite rc with the result of aws_iot_mqtt_autoreconnect_set_status(true)
and return early if that failed, subscribe (rc now being the set-status
result, which is NONE_ERROR in this branch), then run the receive loop. -/
def subscriberMain (connectRc setRc subRc : IoTError)
    (yieldOutcome : Nat → IoTError) (stdinChars : Nat → Char) (fuel : Nat) : List MainEvent :=
  [MainEvent.connectCall]
    ++ (if connectRc ≠ IoTError.NONE_ERROR then [MainEvent.logConnectError connectRc] else [])
    ++ [MainEvent.setAutoReconnectCall true]
    ++ (if setRc ≠ IoTError.NONE_ERROR then [MainEvent.retMain setRc]
        else
          let loop := subscriberLoop yieldOutcome stdinChars 0 subRc '\x00' fuel
          MainEvent.subscribeCall "sample-application/random-number" 0
            :: loop.1 ++ [MainEvent.retMain loop.2])

/-- Whether a main event is a call into the MQTT SDK. -/
def isMqttCall : MainEvent → Bool
  | MainEvent.connectCall => true
  | MainEvent.setAutoReconnectCall _ => true
  | MainEvent.publishCall _ _ _ => true
  | MainEvent.subscribeCall _ _ => true
  | MainEvent.yieldCall _ => true
  | _ => false

/-- Modelled from the spec: parameter validation of the Client Facade's
connect, which lives in the SDK and not in this repository. The spec requires
a non-empty host, a port in [1, 65535] and a non-empty client ID of at most
65535 UTF-8 bytes. -/
def connectParamsValid (host : String) (port : Nat) (clientID : String) : Bool :=
  (!host.isEmpty) && decide (1 ≤ port) && decide (port ≤ 65535)
    && (!clientID.isEmpty) && decide (clientID.utf8ByteSize ≤ 65535)

/-- Modelled from the spec: the connect entry point fails fast with
InvalidParams before any network input/output when validation fails, and
otherwise proceeds to the transport, whose outcome is `handshakeOutcome`.
The Bool records whether network input/output was attempted. -/
def awsIotMqttConnect (host : String) (port : Nat) (clientID : String)
    (handshakeOutcome : IoTError) : IoTError × Bool :=
  if connectParamsValid host port clientID then (handshakeOutcome, true)
  else (IoTError.InvalidParams, false)

/-- The sprintf path construction concatenates its three arguments with
slashes. -/
theorem tlsMaterialPath_eq (cwd certDir fname : String) :
    tlsMaterialPath cwd certDir fname = cwd ++ "/" ++ certDir ++ "/" ++ fname := by
  unfold tlsMaterialPath
  show String.mk (sprintfS ['%', 's', '/', '%', 's', '/', '%', 's'] [cwd, certDir, fname]) = _
  simp only [sprintfS]
  apply String.ext
  simp [String.data_append]

/-- Claim C2: in either application, each invocation of the disconnect
notification callback calls aws_iot_mqtt_attempt_reconnect exactly once when
auto-reconnect is disabled at that moment and never when it is enabled; the
one-shot manual reconnect outcome is only logged, never looped on. -/
theorem claim_C2_disconnect_handler_one_shot_reconnect (enabled : Bool) (outcome : IoTError) :
    (mqttDisconnectCallbackHandler enabled outcome).count HandlerEvent.attemptReconnectCall
      = if enabled then 0 else 1 := by
  cases enabled <;> cases outcome <;> rfl

/-- Claim C6: in either application, each of the three TLS material paths
handed to connect is the concatenation of the current working directory, the
single configurable certificate directory and the per-material file name. -/
theorem claim_C6_tls_paths_from_cert_directory (cwd certDir caName crtName keyName : String) :
    (mainTlsPaths cwd certDir caName crtName keyName).rootCA
        = cwd ++ "/" ++ certDir ++ "/" ++ caName
    ∧ (mainTlsPaths cwd certDir caName crtName keyName).clientCRT
        = cwd ++ "/" ++ certDir ++ "/" ++ crtName
    ∧ (mainTlsPaths cwd certDir caName crtName keyName).clientKey
        = cwd ++ "/" ++ certDir ++ "/" ++ keyName :=
  ⟨tlsMaterialPath_eq cwd certDir caName,
   tlsMaterialPath_eq cwd certDir crtName,
   tlsMaterialPath_eq cwd certDir keyName⟩

/-- Claim C8: every rand() value is at most INT_MAX, whose decimal
representation has at most 10 digits, so sprintf writes at most 11 bytes
(digits plus NUL terminator) into the 15-byte cPayload buffer. -/
theorem claim_C8_payload_write_in_bounds (v : Nat) (hv : v ≤ intMax) :
    (decimalDigitBytes v).length ≤ 10
    ∧ (sprintfDecimal v).length = (decimalDigitBytes v).length + 1
    ∧ (sprintfDecimal v).length ≤ 11
    ∧ (sprintfDecimal v).length ≤ cPayloadSize := by
  have hpow : (10 : Nat) ^ 10 = 10000000000 := by norm_num
  have h10 : v < 10 ^ 10 := by
    rw [hpow]
    unfold intMax at hv
    omega
  have hlen := decimalDigitBytes_length_le 10 v h10 (by norm_num)
  have hsp : (sprintfDecimal v).length = (decimalDigitBytes v).length + 1 := by
    simp [sprintfDecimal]
  refine ⟨hlen, hsp, ?_, ?_⟩
  · omega
  · unfold cPayloadSize
    omega

/-- Witness for claim C8 at the concrete rand() value 3. -/
theorem claim_C8_payload_write_in_bounds_witness :
    (decimalDigitBytes 3).length ≤ 10
    ∧ (sprintfDecimal 3).length = (decimalDigitBytes 3).length + 1
    ∧ (sprintfDecimal 3).length ≤ 11
    ∧ (sprintfDecimal 3).length ≤ cPayloadSize :=
  claim_C8_payload_write_in_bounds 3 (by decide)

/-- Claim C9: the payload handed to publish has length strlen(cPayload) + 1
and consists of the decimal digits of the random number followed by exactly
one trailing NUL byte, so the NUL terminator is part of the transmitted
payload bytes. -/
theorem claim_C9_payload_includes_nul_terminator (v : Nat) :
    publishedPayload v = decimalDigitBytes v ++ [0]
    ∧ (publishedPayload v).length = strlen (sprintfDecimal v) + 1
    ∧ (publishedPayload v).getLast? = some 0 := by
  have h1 : publishedPayload v = sprintfDecimal v := by
    unfold publishedPayload
    rw [strlen_sprintfDecimal]
    apply List.take_of_length_le
    simp [sprintfDecimal]
  have h2 : publishedPayload v = decimalDigitBytes v ++ [0] := by
    rw [h1]; rfl
  refine ⟨h2, ?_, ?_⟩
  · rw [h2, strlen_sprintfDecimal]
    simp
  · rw [h2]
    simp

/-- Length bound on the publish loop trace, by induction on a fuel bound for
the strictly decreasing publishCount. -/
theorem publishLoop_length_le (rands : Nat → Nat) (pubOutcome : Nat → IoTError) :
    ∀ (m i : Nat) (rc : IoTError) (count : Int), count.toNat ≤ m →
      (publishLoop rands pubOutcome i rc count).1.length ≤ count.toNat := by
  intro m
  induction m with
  | zero =>
    intro i rc count h
    rw [publishLoop]
    by_cases hc : loopContinueRc rc ∧ 0 < count
    · omega
    · simp [hc]
  | succ m ih =>
    intro i rc count h
    rw [publishLoop]
    by_cases hc : loopContinueRc rc ∧ 0 < count
    · simp only [hc, and_self, if_true, List.length_cons]
      have h2 : (count - 1).toNat ≤ m := by omega
      have := ih (i + 1) (pubOutcome i) (count - 1) h2
      omega
    · simp [hc]

/-- Claim C10: the publisher's publish loop always terminates; for every
initial value of publishCount it performs at most max(publishCount, 0)
iterations, since publishCount is decremented on every iteration regardless
of the publish outcome and the loop requires publishCount > 0. -/
theorem claim_C10_publish_loop_bounded (rands : Nat → Nat) (pubOutcome : Nat → IoTError)
    (i : Nat) (rc : IoTError) (count : Int) :
    ((publishLoop rands pubOutcome i rc count).1.length : Int) ≤ max count 0 := by
  have := publishLoop_length_le rands pubOutcome count.toNat i rc count (le_refl _)
  omega

/-- Follows the words of claim C1: the expected shape of the publisher's send
loop, one iteration per remaining count, each publishing the decimal string
of the next fresh rand() value on the fixed topic with QoS 0 and then
sleeping 1 second. -/
def specPublisherTrace (rands : Nat → Nat) : Nat → Nat → List PubEvent
  | _, 0 => []
  | i, m + 1 =>
    { topic := "sample-application/random-number", qos := 0,
      payload := publishedPayload (rands i), sleepSec := 1 }
      :: specPublisherTrace rands (i + 1) m

/-- The publish loop trace refines the spec trace. -/
theorem publishLoop_refines_spec (rands : Nat → Nat) (pubOutcome : Nat → IoTError) :
    ∀ (m i : Nat) (rc : IoTError) (count : Int), count.toNat ≤ m →
      (publishLoop rands pubOutcome i rc count).1
        = specPublisherTrace rands i (publishLoop rands pubOutcome i rc count).1.length := by
  intro m
  induction m with
  | zero =>
    intro i rc count h
    rw [publishLoop]
    by_cases hc : loopContinueRc rc ∧ 0 < count
    · omega
    · simp [hc, specPublisherTrace]
  | succ m ih =>
    intro i rc count h
    rw [publishLoop]
    by_cases hc : loopContinueRc rc ∧ 0 < count
    · simp only [hc, and_self, if_true, List.length_cons]
      rw [specPublisherTrace]
      have h2 : (count - 1).toNat ≤ m := by omega
      have := ih (i + 1) (pubOutcome i) (count - 1) h2
      exact congrArg _ this
    · simp [hc, specPublisherTrace]

/-- Claim C1: every iteration of the publisher's main loop publishes the
decimal string of one fresh rand() value to "sample-application/random-number"
with QoS 0 and then sleeps exactly 1 second (the trace equals the spec trace),
and the loop runs only while the last return code is NONE_ERROR,
RECONNECT_SUCCESSFUL or NETWORK_ATTEMPTING_RECONNECT and publishCount > 0
(otherwise it performs no iteration). -/
theorem claim_C1_publish_loop_behavior (rands : Nat → Nat) (pubOutcome : Nat → IoTError)
    (i : Nat) (rc : IoTError) (count : Int) :
    (publishLoop rands pubOutcome i rc count).1
      = specPublisherTrace rands i (publishLoop rands pubOutcome i rc count).1.length
    ∧ (¬ (loopContinueRc rc = true ∧ 0 < count) →
        (publishLoop rands pubOutcome i rc count).1 = []) := by
  constructor
  · exact publishLoop_refines_spec rands pubOutcome count.toNat i rc count (le_refl _)
  · intro h
    rw [publishLoop]
    simp [h]

/-- Witness for claim C1 at concrete inputs: with return code GENERIC_ERROR
the loop performs no iteration. -/
theorem claim_C1_publish_loop_behavior_witness :
    (publishLoop (fun _ => 5) (fun _ => IoTError.NONE_ERROR) 0 IoTError.GENERIC_ERROR 3).1 = [] :=
  (claim_C1_publish_loop_behavior (fun _ => 5) (fun _ => IoTError.NONE_ERROR) 0
    IoTError.GENERIC_ERROR 3).2 (by decide)

/-- Folding the publisher's option switch: HostAddress is the argument of the
last -h option, or the prior value if there is none. -/
theorem foldl_applyPubOpt_hostAddress :
    ∀ (evs : List (Char × Option String)) (d : PubConfig),
      (evs.foldl applyPubOpt d).hostAddress = (lastOptArg 'h' evs).getD d.hostAddress := by
  intro evs
  induction evs with
  | nil => intro d; rfl
  | cons e evs ih =>
    intro d
    rw [List.foldl_cons, ih, lastOptArg]
    cases h : lastOptArg 'h' evs with
    | some a => rfl
    | none =>
      rcases e with ⟨c, a⟩
      cases a with
      | none => simp [applyPubOpt]
      | some s =>
        simp only [applyPubOpt, Option.isSome_some, and_true]
        split_ifs <;> simp_all

/-- Folding the publisher's option switch: port is the uint32_t conversion of
atoi of the argument of the last -p option, or the prior value. -/
theorem foldl_applyPubOpt_port :
    ∀ (evs : List (Char × Option String)) (d : PubConfig),
      (evs.foldl applyPubOpt d).port
        = ((lastOptArg 'p' evs).map (fun s => uint32OfInt (atoi s))).getD d.port := by
  intro evs
  induction evs with
  | nil => intro d; rfl
  | cons e evs ih =>
    intro d
    rw [List.foldl_cons, ih, lastOptArg]
    cases h : lastOptArg 'p' evs with
    | some a => rfl
    | none =>
      rcases e with ⟨c, a⟩
      cases a with
      | none => simp [applyPubOpt]
      | some s =>
        simp only [applyPubOpt, Option.isSome_some, and_true]
        split_ifs <;> simp_all

/-- Folding the publisher's option switch: certDirectory is the argument of
the last -c option, or the prior value. -/
theorem foldl_applyPubOpt_certDirectory :
    ∀ (evs : List (Char × Option String)) (d : PubConfig),
      (evs.foldl applyPubOpt d).certDirectory = (lastOptArg 'c' evs).getD d.certDirectory := by
  intro evs
  induction evs with
  | nil => intro d; rfl
  | cons e evs ih =>
    intro d
    rw [List.foldl_cons, ih, lastOptArg]
    cases h : lastOptArg 'c' evs with
    | some a => rfl
    | none =>
      rcases e with ⟨c, a⟩
      cases a with
      | none => simp [applyPubOpt]
      | some s =>
        simp only [applyPubOpt, Option.isSome_some, and_true]
        split_ifs <;> simp_all

/-- Folding the publisher's option switch: publishCount is atoi of the
argument of the last -x option, or the prior value. -/
theorem foldl_applyPubOpt_publishCount :
    ∀ (evs : List (Char × Option String)) (d : PubConfig),
      (evs.foldl applyPubOpt d).publishCount
        = ((lastOptArg 'x' evs).map atoi).getD d.publishCount := by
  intro evs
  induction evs with
  | nil => intro d; rfl
  | cons e evs ih =>
    intro d
    rw [List.foldl_cons, ih, lastOptArg]
    cases h : lastOptArg 'x' evs with
    | some a => rfl
    | none =>
      rcases e with ⟨c, a⟩
      cases a with
      | none => simp [applyPubOpt]
      | some s =>
        simp only [applyPubOpt, Option.isSome_some, and_true]
        split_ifs <;> simp_all

/-- Folding the subscriber's option switch: HostAddress. -/
theorem foldl_applySubOpt_hostAddress :
    ∀ (evs : List (Char × Option String)) (d : SubConfig),
      (evs.foldl applySubOpt d).hostAddress = (lastOptArg 'h' evs).getD d.hostAddress := by
  intro evs
  induction evs with
  | nil => intro d; rfl
  | cons e evs ih =>
    intro d
    rw [List.foldl_cons, ih, lastOptArg]
    cases h : lastOptArg 'h' evs with
    | some a => rfl
    | none =>
      rcases e with ⟨c, a⟩
      cases a with
      | none => simp [applySubOpt]
      | some s =>
        simp only [applySubOpt, Option.isSome_some, and_true]
        split_ifs <;> simp_all

/-- Folding the subscriber's option switch: port. -/
theorem foldl_applySubOpt_port :
    ∀ (evs : List (Char × Option String)) (d : SubConfig),
      (evs.foldl applySubOpt d).port
        = ((lastOptArg 'p' evs).map (fun s => uint32OfInt (atoi s))).getD d.port := by
  intro evs
  induction evs with
  | nil => intro d; rfl
  | cons e evs ih =>
    intro d
    rw [List.foldl_cons, ih, lastOptArg]
    cases h : lastOptArg 'p' evs with
    | some a => rfl
    | none =>
      rcases e with ⟨c, a⟩
      cases a with
      | none => simp [applySubOpt]
      | some s =>
        simp only [applySubOpt, Option.isSome_some, and_true]
        split_ifs <;> simp_all

/-- Folding the subscriber's option switch: certDirectory. -/
theorem foldl_applySubOpt_certDirectory :
    ∀ (evs : List (Char × Option String)) (d : SubConfig),
      (evs.foldl applySubOpt d).certDirectory = (lastOptArg 'c' evs).getD d.certDirectory := by
  intro evs
  induction evs with
  | nil => intro d; rfl
  | cons e evs ih =>
    intro d
    rw [List.foldl_cons, ih, lastOptArg]
    cases h : lastOptArg 'c' evs with
    | some a => rfl
    | none =>
      rcases e with ⟨c, a⟩
      cases a with
      | none => simp [applySubOpt]
      | some s =>
        simp only [applySubOpt, Option.isSome_some, and_true]
        split_ifs <;> simp_all

/-- Claim C7 (amended): after parseInputArgsForConnectParams, HostAddress is
the argument of the last -h option (or its default), port is atoi of the last
-p argument converted to uint32_t (or its default), certDirectory is the last
-c argument (or its default), the publisher's publishCount is atoi of the last
-x argument (or its default), and an option character outside the recognised
set changes none of the configuration variables. -/
theorem claim_C7_parse_last_option_wins (dPub : PubConfig) (dSub : SubConfig)
    (args : List String) :
    (parseInputArgsForConnectParamsPub dPub args).hostAddress
        = (lastOptArg 'h' (getoptArgs pubOptChars args)).getD dPub.hostAddress
    ∧ (parseInputArgsForConnectParamsPub dPub args).port
        = ((lastOptArg 'p' (getoptArgs pubOptChars args)).map
            (fun s => uint32OfInt (atoi s))).getD dPub.port
    ∧ (parseInputArgsForConnectParamsPub dPub args).certDirectory
        = (lastOptArg 'c' (getoptArgs pubOptChars args)).getD dPub.certDirectory
    ∧ (parseInputArgsForConnectParamsPub dPub args).publishCount
        = ((lastOptArg 'x' (getoptArgs pubOptChars args)).map atoi).getD dPub.publishCount
    ∧ (parseInputArgsForConnectParamsSub dSub args).hostAddress
        = (lastOptArg 'h' (getoptArgs subOptChars args)).getD dSub.hostAddress
    ∧ (parseInputArgsForConnectParamsSub dSub args).port
        = ((lastOptArg 'p' (getoptArgs subOptChars args)).map
            (fun s => uint32OfInt (atoi s))).getD dSub.port
    ∧ (parseInputArgsForConnectParamsSub dSub args).certDirectory
        = (lastOptArg 'c' (getoptArgs subOptChars args)).getD dSub.certDirectory
    ∧ (∀ (cfg : PubConfig) (c : Char) (a : Option String),
        c ∉ pubOptChars → applyPubOpt cfg (c, a) = cfg)
    ∧ (∀ (cfg : SubConfig) (c : Char) (a : Option String),
        c ∉ subOptChars → applySubOpt cfg (c, a) = cfg) := by
  refine ⟨foldl_applyPubOpt_hostAddress _ dPub, foldl_applyPubOpt_port _ dPub,
    foldl_applyPubOpt_certDirectory _ dPub, foldl_applyPubOpt_publishCount _ dPub,
    foldl_applySubOpt_hostAddress _ dSub, foldl_applySubOpt_port _ dSub,
    foldl_applySubOpt_certDirectory _ dSub, ?_, ?_⟩
  · intro cfg c a hc
    simp only [pubOptChars, List.mem_cons, List.not_mem_nil, or_false, not_or] at hc
    obtain ⟨h1, h2, h3, h4⟩ := hc
    cases a with
    | none => rfl
    | some s => simp [applyPubOpt, h1, h2, h3, h4]
  · intro cfg c a hc
    simp only [subOptChars, List.mem_cons, List.not_mem_nil, or_false, not_or] at hc
    obtain ⟨h1, h2, h3⟩ := hc
    cases a with
    | none => rfl
    | some s => simp [applySubOpt, h1, h2, h3]

/-- Witness for claim C7 at concrete inputs: an unrecognised option character
leaves the publisher configuration unchanged. -/
theorem claim_C7_parse_last_option_wins_witness :
    applyPubOpt { hostAddress := "h0", port := 8883,
                  certDirectory := "../../certs", publishCount := 10 }
        ('z', some "v")
      = { hostAddress := "h0", port := 8883,
          certDirectory := "../../certs", publishCount := 10 } :=
  (claim_C7_parse_last_option_wins
      { hostAddress := "h0", port := 8883,
        certDirectory := "../../certs", publishCount := 10 }
      { hostAddress := "h0", port := 8883, certDirectory := "../../certs" }
      []).2.2.2.2.2.2.2.1
    { hostAddress := "h0", port := 8883,
      certDirectory := "../../certs", publishCount := 10 }
    'z' (some "v") (by decide)

/-- Counterexample to claim C7 as stated: with the argument vector
"-p -1" the stored uint32_t port is 4294967295, which is not equal to
atoi("-1") = -1; port equals atoi only after conversion to uint32_t. -/
theorem claim_C7_port_not_atoi_counterexample :
    (((parseInputArgsForConnectParamsPub
        { hostAddress := "h0", port := 8883,
          certDirectory := "../../certs", publishCount := 10 }
        ["-p", "-1"]).port : Int) = 4294967295)
    ∧ atoi "-1" = -1
    ∧ ¬ (((parseInputArgsForConnectParamsPub
        { hostAddress := "h0", port := 8883,
          certDirectory := "../../certs", publishCount := 10 }
        ["-p", "-1"]).port : Int) = atoi "-1") := by
  refine ⟨by rfl, by rfl, ?_⟩
  intro h
  rw [show atoi "-1" = -1 from rfl] at h
  rw [show (parseInputArgsForConnectParamsPub
        { hostAddress := "h0", port := 8883,
          certDirectory := "../../certs", publishCount := 10 }
        ["-p", "-1"]).port = 4294967295 from rfl] at h
  omega

/-- Claim C5 (amended): whenever the parameters handed to connect fail the
spec's validation (in particular whenever the port produced by the sample's
argument parsing lies outside [1, 65535]), the modelled connect fails fast
with InvalidParams and attempts no network input/output. -/
theorem claim_C5_invalid_params_fail_fast (dPub : PubConfig) (args : List String)
    (host clientID : String) (handshakeOutcome : IoTError)
    (h : connectParamsValid host (parseInputArgsForConnectParamsPub dPub args).port
          clientID = false) :
    awsIotMqttConnect host (parseInputArgsForConnectParamsPub dPub args).port
        clientID handshakeOutcome
      = (IoTError.InvalidParams, false) := by
  unfold awsIotMqttConnect
  rw [h]
  rfl

/-- Witness for claim C5 at concrete inputs: the port 70000 produced by
"-p 70000" is rejected before any network input/output. -/
theorem claim_C5_invalid_params_fail_fast_witness :
    awsIotMqttConnect "example.com"
        (parseInputArgsForConnectParamsPub
          { hostAddress := "h0", port := 8883,
            certDirectory := "../../certs", publishCount := 10 }
          ["-p", "70000"]).port
        "client-id" IoTError.NONE_ERROR
      = (IoTError.InvalidParams, false) :=
  claim_C5_invalid_params_fail_fast
    { hostAddress := "h0", port := 8883,
      certDirectory := "../../certs", publishCount := 10 }
    ["-p", "70000"] "example.com" "client-id" IoTError.NONE_ERROR (by rfl)

/-- Counterexample to claim C5 as stated: the port value handed to connect is
not always in [1, 65535]; with "-p 70000" the sample performs no range check
and hands port 70000 to connect. -/
theorem claim_C5_port_out_of_range_counterexample :
    (parseInputArgsForConnectParamsPub
        { hostAddress := "h0", port := 8883,
          certDirectory := "../../certs", publishCount := 10 }
        ["-p", "70000"]).port = 70000
    ∧ ¬ ((parseInputArgsForConnectParamsPub
        { hostAddress := "h0", port := 8883,
          certDirectory := "../../certs", publishCount := 10 }
        ["-p", "70000"]).port ≤ 65535) := by
  constructor
  · rfl
  · intro h
    rw [show (parseInputArgsForConnectParamsPub
        { hostAddress := "h0", port := 8883,
          certDirectory := "../../certs", publishCount := 10 }
        ["-p", "70000"]).port = 70000 from rfl] at h
    omega

/-- Every event of the subscriber receive loop is the 1-second sleep, the
100 ms yield, or the stdin read. -/
theorem subscriberLoop_events (yo : Nat → IoTError) (sc : Nat → Char) :
    ∀ (fuel i : Nat) (rc : IoTError) (ch : Char) (ev : MainEvent),
      ev ∈ (subscriberLoop yo sc i rc ch fuel).1 →
        ev = MainEvent.sleepCall 1 ∨ ev = MainEvent.yieldCall 100
          ∨ ev = MainEvent.readStdinChar := by
  intro fuel
  induction fuel with
  | zero =>
    intro i rc ch ev hmem
    simp [subscriberLoop] at hmem
  | succ fuel ih =>
    intro i rc ch ev hmem
    simp only [subscriberLoop] at hmem
    by_cases hc : loopContinueRc rc ∧ ch ≠ 'q'
    · rw [if_pos hc] at hmem
      simp only [List.mem_cons] at hmem
      rcases hmem with h | h | h | h
      · exact Or.inl h
      · exact Or.inr (Or.inl h)
      · exact Or.inr (Or.inr h)
      · exact ih (i + 1) (yo i) (sc i) ev h
    · rw [if_neg hc] at hmem
      simp at hmem

/-- The publisher's send loop never calls connect: its mapped publish events
contain no connectCall. -/
theorem publishCalls_no_connect (l : List PubEvent) :
    MainEvent.connectCall
      ∉ l.map (fun ev => MainEvent.publishCall ev.topic ev.qos ev.payload) := by
  simp

/-- aws_iot_mqtt_connect is called exactly once per publisher run. -/
theorem publisherMain_connect_count (c setRc : IoTError) (rands : Nat → Nat)
    (pubOutcome : Nat → IoTError) (count : Int) :
    (publisherMain c setRc rands pubOutcome count).count MainEvent.connectCall = 1 := by
  have hmap := List.count_eq_zero.mpr
    (publishCalls_no_connect (publishLoop rands pubOutcome 0 setRc count).1)
  unfold publisherMain
  by_cases h2 : setRc ≠ IoTError.NONE_ERROR <;>
    by_cases h1 : c ≠ IoTError.NONE_ERROR <;>
      simp [h1, h2, List.count_append, List.count_cons, hmap]

/-- aws_iot_mqtt_connect is called exactly once per subscriber run. -/
theorem subscriberMain_connect_count (c setRc subRc : IoTError)
    (yo : Nat → IoTError) (sc : Nat → Char) (fuel : Nat) :
    (subscriberMain c setRc subRc yo sc fuel).count MainEvent.connectCall = 1 := by
  have hloop : MainEvent.connectCall ∉ (subscriberLoop yo sc 0 subRc '\x00' fuel).1 := by
    intro hmem
    rcases subscriberLoop_events yo sc fuel 0 subRc '\x00' MainEvent.connectCall hmem
      with h | h | h <;> simp at h
  have hcnt := List.count_eq_zero.mpr hloop
  unfold subscriberMain
  by_cases h2 : setRc ≠ IoTError.NONE_ERROR <;>
    by_cases h1 : c ≠ IoTError.NONE_ERROR <;>
      simp [h1, h2, List.count_append, List.count_cons, hcnt]

/-- The filtered SDK-call trace of the publisher does not depend on the
connect return code. -/
theorem publisherMain_filter_indep (c1 c2 setRc : IoTError) (rands : Nat → Nat)
    (pubOutcome : Nat → IoTError) (count : Int) :
    (publisherMain c1 setRc rands pubOutcome count).filter isMqttCall
      = (publisherMain c2 setRc rands pubOutcome count).filter isMqttCall := by
  have hlog : ∀ rc : IoTError,
      ((if rc ≠ IoTError.NONE_ERROR then [MainEvent.logConnectError rc] else []).filter
        isMqttCall) = [] := by
    intro rc; split <;> rfl
  unfold publisherMain
  simp only [List.filter_append, hlog]

/-- The filtered SDK-call trace of the subscriber does not depend on the
connect return code. -/
theorem subscriberMain_filter_indep (c1 c2 setRc subRc : IoTError)
    (yo : Nat → IoTError) (sc : Nat → Char) (fuel : Nat) :
    (subscriberMain c1 setRc subRc yo sc fuel).filter isMqttCall
      = (subscriberMain c2 setRc subRc yo sc fuel).filter isMqttCall := by
  have hlog : ∀ rc : IoTError,
      ((if rc ≠ IoTError.NONE_ERROR then [MainEvent.logConnectError rc] else []).filter
        isMqttCall) = [] := by
    intro rc; split <;> rfl
  unfold subscriberMain
  simp only [List.filter_append, hlog]

/-- Claim C3 (amended): a failed initial connect is only logged and is not
terminal; neither program retries connect (it is called exactly once per run)
and the rest of the run, in particular whether publishing, subscribing and
yielding happen, is entirely independent of the connect return code, because
rc is overwritten by the auto-reconnect set-status result. -/
theorem claim_C3_failed_connect_only_logged (c1 c2 setRc subRc : IoTError)
    (rands : Nat → Nat) (pubOutcome yieldOutcome : Nat → IoTError) (count : Int)
    (stdinChars : Nat → Char) (fuel : Nat) :
    (publisherMain c1 setRc rands pubOutcome count).filter isMqttCall
        = (publisherMain c2 setRc rands pubOutcome count).filter isMqttCall
    ∧ (publisherMain c1 setRc rands pubOutcome count).count MainEvent.connectCall = 1
    ∧ (subscriberMain c1 setRc subRc yieldOutcome stdinChars fuel).filter isMqttCall
        = (subscriberMain c2 setRc subRc yieldOutcome stdinChars fuel).filter isMqttCall
    ∧ (subscriberMain c1 setRc subRc yieldOutcome stdinChars fuel).count
        MainEvent.connectCall = 1 :=
  ⟨publisherMain_filter_indep c1 c2 setRc rands pubOutcome count,
   publisherMain_connect_count c1 setRc rands pubOutcome count,
   subscriberMain_filter_indep c1 c2 setRc subRc yieldOutcome stdinChars fuel,
   subscriberMain_connect_count c1 setRc subRc yieldOutcome stdinChars fuel⟩

/-- Counterexample to claim C3 as stated: in a run where connect returns
CONNECTION_ERROR and the auto-reconnect set-status call returns NONE_ERROR,
the publisher proceeds to publish without ever retrying connect. -/
theorem claim_C3_proceeds_after_failed_connect_counterexample :
    (publisherMain IoTError.CONNECTION_ERROR IoTError.NONE_ERROR (fun _ => 7)
        (fun _ => IoTError.NONE_ERROR) 1).count MainEvent.connectCall = 1
    ∧ MainEvent.publishCall "sample-application/random-number" 0 (publishedPayload 7)
        ∈ publisherMain IoTError.CONNECTION_ERROR IoTError.NONE_ERROR (fun _ => 7)
            (fun _ => IoTError.NONE_ERROR) 1 := by
  have hloop : publishLoop (fun _ => 7) (fun _ => IoTError.NONE_ERROR) 0
      IoTError.NONE_ERROR 1
      = ([{ topic := "sample-application/random-number", qos := 0,
            payload := publishedPayload 7, sleepSec := 1 }], IoTError.NONE_ERROR) := by
    rw [publishLoop, if_pos (by decide)]
    rw [publishLoop, if_neg (by decide)]
  constructor
  · simp [publisherMain, hloop, List.count_append, List.count_cons]
  · simp [publisherMain, hloop]

/-- Claim C4 (amended): the subscriber drives protocol progress solely through
aws_iot_mqtt_yield(100) (the only SDK call its receive loop performs), and the
interval between consecutive yield calls stays within the 10-second keep-alive
interval only as long as the character read from standard input arrives within
8.9 seconds; the wait for stdin is otherwise unbounded. -/
theorem claim_C4_yield_interval_bounded_only_with_prompt_stdin
    (yieldMs stdinWaitMs : Nat) (hy : yieldMs ≤ 100) (hd : stdinWaitMs ≤ 8900) :
    subscriberInterYieldMs yieldMs stdinWaitMs ≤ keepAliveIntervalSec * 1000
    ∧ (∀ (yo : Nat → IoTError) (sc : Nat → Char) (fuel i : Nat) (rc : IoTError)
        (ch : Char) (ev : MainEvent), ev ∈ (subscriberLoop yo sc i rc ch fuel).1 →
          isMqttCall ev = true → ev = MainEvent.yieldCall 100) := by
  constructor
  · unfold subscriberInterYieldMs keepAliveIntervalSec
    omega
  · intro yo sc fuel i rc ch ev hmem hmqtt
    rcases subscriberLoop_events yo sc fuel i rc ch ev hmem with h | h | h
    · subst h; simp [isMqttCall] at hmqtt
    · exact h
    · subst h; simp [isMqttCall] at hmqtt

/-- Witness for claim C4 at concrete inputs: with a prompt stdin character the
inter-yield interval stays within the keep-alive interval. -/
theorem claim_C4_yield_interval_witness :
    subscriberInterYieldMs 100 0 ≤ keepAliveIntervalSec * 1000 :=
  (claim_C4_yield_interval_bounded_only_with_prompt_stdin 100 0 (by decide) (by decide)).1

/-- Counterexample to claim C4 as stated: when the user takes 20 seconds to
answer the prompt, the interval between consecutive yield calls is 21100 ms,
which exceeds the 10-second keep-alive interval. -/
theorem claim_C4_interval_exceeds_keepalive_counterexample :
    subscriberInterYieldMs 100 20000 = 21100
    ∧ keepAliveIntervalSec * 1000 < subscriberInterYieldMs 100 20000 := by
  constructor <;> decide
